import Mathlib

/-!
Shallow embedding of the PI-VPN-Router policy/routing backend
(`backend/routing.py`, `backend/vpn_manager.py`, `backend/device_manager.py`,
`backend/domain_manager.py`, `backend/config_manager.py`, `backend/models.py`).

The embedding models each privileged OS command invocation
(`utils.run_command`) as an event.  Commands that mutate kernel packet
rules (iptables chains, `ip rule`, `ip route replace`) are interpreted
against an explicit `KernelState`; queries whose answers come from the
outside world (`arp -n`, `host`, `wg show`, `wg-quick`, DHCP lease file,
profile files) are answered by a fixed `World` oracle.  The JSON policy
store (`config_manager.load_config`/`save_config`) is modelled as a field
of the machine state that is replaced wholesale by each save.
-/

namespace PiRouter

/-! ### String helpers mirroring the Python string operations used -/

/-- Here `startsWithL n h` means the char list `n` is an initial segment of `h`. -/
def startsWithL : List Char → List Char → Bool
  | [], _ => true
  | _ :: _, [] => false
  | a :: as, b :: bs => a = b && startsWithL as bs

/-- Here `hasSub n h` means the char list `n` occurs contiguously inside `h`
(Python's `n in h` on strings). -/
def hasSub (needle : List Char) : List Char → Bool
  | [] => startsWithL needle []
  | c :: rest => startsWithL needle (c :: rest) || hasSub needle rest

/-- Python `pat in s` (substring containment). -/
def strContains (s pat : String) : Bool :=
  hasSub pat.data s.data

/-- Split a char list at every occurrence of `sep`, keeping empty pieces
(the single-character case of Python `str.split(sep)`). -/
def splitCharList (sep : Char) : List Char → List (List Char)
  | [] => [[]]
  | c :: rest =>
    let r := splitCharList sep rest
    if c = sep then [] :: r
    else
      match r with
      | h :: t => (c :: h) :: t
      | [] => [[c]]

/-- Python `s.split("\n")`. -/
def splitLines (s : String) : List String :=
  (splitCharList '\n' s.data).map (fun l => ⟨l⟩)

/-- Split a char list on a predicate, keeping empty pieces. -/
def splitPred (p : Char → Bool) : List Char → List (List Char)
  | [] => [[]]
  | c :: rest =>
    let r := splitPred p rest
    if p c then [] :: r
    else
      match r with
      | h :: t => (c :: h) :: t
      | [] => [[c]]

/-- Python `str.split()` with no argument: split on whitespace runs,
dropping empty pieces. -/
def pySplit (s : String) : List String :=
  ((splitPred Char.isWhitespace s.data).filter (fun t => t ≠ [])).map (fun l => ⟨l⟩)

/-- ASCII lowercase of one character (Python `str.lower` on the ASCII
text this system handles). -/
def lowerChar (c : Char) : Char :=
  if 65 ≤ c.toNat ∧ c.toNat ≤ 90 then Char.ofNat (c.toNat + 32) else c

/-- Python `s.lower()`. -/
def pyLower (s : String) : String :=
  ⟨s.data.map lowerChar⟩

/-- Python `s.strip()`. -/
def pyStrip (s : String) : String :=
  ⟨((s.data.dropWhile Char.isWhitespace).reverse.dropWhile Char.isWhitespace).reverse⟩

/-- One fueled pass of left-to-right non-overlapping replacement
(Python `s.replace(pat, repl)` for a non-empty `pat`; the fuel bounds the
number of steps, each of which consumes at least one character). -/
def replaceAux (pat repl : List Char) : Nat → List Char → List Char
  | 0, l => l
  | _ + 1, [] => []
  | fuel + 1, c :: rest =>
    if startsWithL pat (c :: rest) then
      repl ++ replaceAux pat repl fuel (List.drop pat.length (c :: rest))
    else c :: replaceAux pat repl fuel rest

/-- Python `s.replace(pat, repl)`. -/
def pyReplace (s pat repl : String) : String :=
  ⟨replaceAux pat.data repl.data s.data.length s.data⟩

/-- Digit character for a value below 16 (0-9 then a-f). -/
def hexDigitChar (n : Nat) : Char :=
  if n < 10 then Char.ofNat (48 + n) else Char.ofNat (87 + n)

def hexStrAux : Nat → Nat → List Char
  | 0, _ => []
  | fuel + 1, n =>
    if n < 16 then [hexDigitChar n]
    else hexStrAux fuel (n / 16) ++ [hexDigitChar (n % 16)]

/-- Lowercase hexadecimal rendering of a natural number
(Python `format(n, "x")`). -/
def hexStr (n : Nat) : String :=
  ⟨hexStrAux (n + 1) n⟩

def decStrAux : Nat → Nat → List Char
  | 0, _ => []
  | fuel + 1, n =>
    if n < 10 then [hexDigitChar n]
    else decStrAux fuel (n / 10) ++ [hexDigitChar (n % 10)]

/-- Decimal rendering of a natural number. -/
def decStr (n : Nat) : String :=
  ⟨decStrAux (n + 1) n⟩

/-- Numeric value of a decimal digit character. -/
def digitVal (c : Char) : Option Nat :=
  if 48 ≤ c.toNat ∧ c.toNat ≤ 57 then some (c.toNat - 48) else none

def parseNatAux : List Char → Nat → Option Nat
  | [], acc => some acc
  | c :: rest, acc =>
    match digitVal c with
    | some d => parseNatAux rest (acc * 10 + d)
    | none => none

/-- Numeric parse of a decimal string (how the kernel reads the fwmark,
table and priority arguments of `ip rule add`). -/
def strToNat (s : String) : Option Nat :=
  match s.data with
  | [] => none
  | l => parseNatAux l 0

/-! ### Fixed configuration constants (`routing.py`, `config_manager.py`) -/

def WAN_IFACE : String := "eth0"
def LAN_IFACE : String := "eth1"
def GATEWAY_IP : String := "192.168.5.1"
def BYPASS_TABLE : String := "100"
def WG_INTERFACE : String := "wg0"
def WG_CONFIG_FILE : String := "/etc/wireguard/wg0.conf"

/-! ### Data model (`models.py`) -/

/-- Model of `models.Device`. -/
structure Device where
  mac : String
  ip : String
  hostname : Option String
  bypass_vpn : Bool
deriving DecidableEq, Repr

/-- Model of `models.DomainBypass`. -/
structure DomainBypass where
  domain : String
  enabled : Bool
deriving DecidableEq, Repr

/-- Model of `models.RouterConfig` (the persisted policy document). -/
structure RouterConfig where
  active_vpn : Option String := none
  kill_switch_enabled : Bool := false
  devices : List Device := []
  domain_bypasses : List DomainBypass := []
deriving DecidableEq, Repr

/-- Python truthiness of `Optional[str]` (`None` and `""` are falsy),
used by `toggle_kill_switch`'s `not config.active_vpn`. -/
def pyTruthyOpt : Option String → Bool
  | none => false
  | some s => s ≠ ""

/-- Model of `fastapi.HTTPException` as raised by the backend. -/
structure HTTPException where
  status_code : Nat
  detail : String
deriving DecidableEq, Repr

/-! ### Kernel rule state -/

/-- One `ip rule` entry (the kernel stores priority, fwmark, lookup table
numerically). -/
structure IpRule where
  priority : Nat
  fwmark : Nat
  table : Nat
deriving DecidableEq, Repr

/-- The kernel packet-rule state the backend manipulates: the three
iptables chains it touches (rules kept as their matcher/target argv
suffix, in chain order), the `ip rule` list, and the bypass table's
default route (`ip route replace` semantics: at most one). -/
structure KernelState where
  manglePrerouting : List (List String) := []
  forward : List (List String) := []
  natPostrouting : List (List String) := []
  ipRules : List IpRule := []
  bypassRoute : Option (String × String) := none
deriving DecidableEq, Repr

/-- Rendering of one `ip rule show` line; what matters to the source is
that the contiguous text `fwmark 0x<hex> lookup <table>` appears. -/
def renderIpRule (r : IpRule) : String :=
  decStr r.priority ++ ":\tfrom all fwmark 0x" ++ hexStr r.fwmark
    ++ " lookup " ++ decStr r.table ++ "\n"

def concatAll : List String → String
  | [] => ""
  | s :: rest => s ++ concatAll rest

/-- Output of `ip rule show` for a given rule list. -/
def ipRuleShowOutput (rs : List IpRule) : String :=
  concatAll (rs.map renderIpRule)

/-! ### World oracle and machine state -/

/-- Answers of the outside world: query-command outputs and filesystem
facts the backend reads.  Each command answer is `(success, output)`
exactly as `utils.run_command` returns it. -/
structure World where
  arp : Bool × String
  host : String → Bool × String
  wgShow : String → Bool × String
  wgShowInterfaces : Bool × String
  wgQuickUp : String → Bool × String
  wgQuickDown : String → Bool × String
  cp : Bool × String
  profileExists : String → Bool
  profileRead : String → Option String
  writeOk : Bool
  wireguardConfs : List String
  leasesLines : List String

/-- Observable events: every `run_command` invocation (argv without the
`sudo` prefix, plus the `use_sudo` flag) and every `save_config`. -/
inductive Event where
  | cmd (argv : List String) (useSudo : Bool)
  | save (cfg : RouterConfig)
deriving DecidableEq, Repr

def isCmdEvent : Event → Bool
  | .cmd _ _ => true
  | .save _ => false

/-- Machine state threaded through every backend operation. -/
structure St where
  kernel : KernelState := {}
  store : RouterConfig := {}
  events : List Event := []
deriving DecidableEq, Repr

/-- Interpretation of the kernel-mutating commands the backend issues.
`none` means the command does not touch modelled kernel rule state.
`iptables -D` deletes the first rule with the given spec and fails when
none matches; `-A` appends; `-I <chain> 1` inserts at the top;
`ip rule add` appends (no dedup); `ip route replace` overwrites. -/
def interpKernel (K : KernelState) (argv : List String) :
    Option (KernelState × Bool × String) :=
  match argv with
  | "iptables" :: "-t" :: "mangle" :: "-A" :: "PREROUTING" :: spec =>
      some ({ K with manglePrerouting := K.manglePrerouting ++ [spec] }, true, "")
  | "iptables" :: "-t" :: "mangle" :: "-D" :: "PREROUTING" :: spec =>
      some ({ K with manglePrerouting := K.manglePrerouting.erase spec },
            decide (spec ∈ K.manglePrerouting), "")
  | "iptables" :: "-t" :: "nat" :: "-A" :: "POSTROUTING" :: spec =>
      some ({ K with natPostrouting := K.natPostrouting ++ [spec] }, true, "")
  | "iptables" :: "-t" :: "nat" :: "-D" :: "POSTROUTING" :: spec =>
      some ({ K with natPostrouting := K.natPostrouting.erase spec },
            decide (spec ∈ K.natPostrouting), "")
  | "iptables" :: "-A" :: "FORWARD" :: spec =>
      some ({ K with forward := K.forward ++ [spec] }, true, "")
  | "iptables" :: "-I" :: "FORWARD" :: "1" :: spec =>
      some ({ K with forward := spec :: K.forward }, true, "")
  | "iptables" :: "-D" :: "FORWARD" :: spec =>
      some ({ K with forward := K.forward.erase spec },
            decide (spec ∈ K.forward), "")
  | "ip" :: "rule" :: "show" :: [] =>
      some (K, true, ipRuleShowOutput K.ipRules)
  | "ip" :: "rule" :: "add" :: "fwmark" :: m :: "lookup" :: t :: "priority" :: p :: [] =>
      some ({ K with ipRules := K.ipRules ++
               [⟨(strToNat p).getD 0, (strToNat m).getD 0, (strToNat t).getD 0⟩] }, true, "")
  | "ip" :: "route" :: "replace" :: "default" :: "via" :: gw :: "dev" :: dv :: "table" :: _ :: [] =>
      some ({ K with bypassRoute := some (gw, dv) }, true, "")
  | _ => none

/-- Answers for the non-kernel commands, from the `World` oracle. -/
def interpWorld (w : World) (argv : List String) : Bool × String :=
  match argv with
  | ["arp", "-n"] => w.arp
  | ["host", d] => w.host d
  | ["wg", "show", "interfaces"] => w.wgShowInterfaces
  | ["wg", "show", i] => w.wgShow i
  | ["wg-quick", "up", i] => w.wgQuickUp i
  | ["wg-quick", "down", i] => w.wgQuickDown i
  | "cp" :: _ => w.cp
  | _ => (true, "")

/-- Model of `utils.run_command`: records the invocation, interprets it against
kernel state or the world, and returns `(success, output)`. -/
def runCmd (w : World) (argv : List String) (useSudo : Bool) (st : St) :
    (Bool × String) × St :=
  let st1 : St := { st with events := st.events ++ [Event.cmd argv useSudo] }
  match interpKernel st1.kernel argv with
  | some (K, ok, out) => ((ok, out), { st1 with kernel := K })
  | none => (interpWorld w argv, st1)

/-- Model of `config_manager.save_config`. -/
def save_config (cfg : RouterConfig) (st : St) : St :=
  { st with store := cfg, events := st.events ++ [Event.save cfg] }

/-! #### Characterization of `runCmd` on each command shape the source
issues (each is definitional). -/

@[simp] theorem runCmd_mangle_add (w : World) (spec : List String) (s : Bool) (st : St) :
    runCmd w ("iptables" :: "-t" :: "mangle" :: "-A" :: "PREROUTING" :: spec) s st =
      ((true, ""),
       { st with
           events := st.events ++ [Event.cmd ("iptables" :: "-t" :: "mangle" :: "-A" :: "PREROUTING" :: spec) s]
           kernel := { st.kernel with manglePrerouting := st.kernel.manglePrerouting ++ [spec] } }) := rfl

@[simp] theorem runCmd_mangle_del (w : World) (spec : List String) (s : Bool) (st : St) :
    runCmd w ("iptables" :: "-t" :: "mangle" :: "-D" :: "PREROUTING" :: spec) s st =
      ((decide (spec ∈ st.kernel.manglePrerouting), ""),
       { st with
           events := st.events ++ [Event.cmd ("iptables" :: "-t" :: "mangle" :: "-D" :: "PREROUTING" :: spec) s]
           kernel := { st.kernel with manglePrerouting := st.kernel.manglePrerouting.erase spec } }) := rfl

@[simp] theorem runCmd_nat_add (w : World) (spec : List String) (s : Bool) (st : St) :
    runCmd w ("iptables" :: "-t" :: "nat" :: "-A" :: "POSTROUTING" :: spec) s st =
      ((true, ""),
       { st with
           events := st.events ++ [Event.cmd ("iptables" :: "-t" :: "nat" :: "-A" :: "POSTROUTING" :: spec) s]
           kernel := { st.kernel with natPostrouting := st.kernel.natPostrouting ++ [spec] } }) := rfl

@[simp] theorem runCmd_nat_del (w : World) (spec : List String) (s : Bool) (st : St) :
    runCmd w ("iptables" :: "-t" :: "nat" :: "-D" :: "POSTROUTING" :: spec) s st =
      ((decide (spec ∈ st.kernel.natPostrouting), ""),
       { st with
           events := st.events ++ [Event.cmd ("iptables" :: "-t" :: "nat" :: "-D" :: "POSTROUTING" :: spec) s]
           kernel := { st.kernel with natPostrouting := st.kernel.natPostrouting.erase spec } }) := rfl

@[simp] theorem runCmd_forward_add (w : World) (spec : List String) (s : Bool) (st : St) :
    runCmd w ("iptables" :: "-A" :: "FORWARD" :: spec) s st =
      ((true, ""),
       { st with
           events := st.events ++ [Event.cmd ("iptables" :: "-A" :: "FORWARD" :: spec) s]
           kernel := { st.kernel with forward := st.kernel.forward ++ [spec] } }) := rfl

@[simp] theorem runCmd_forward_ins (w : World) (spec : List String) (s : Bool) (st : St) :
    runCmd w ("iptables" :: "-I" :: "FORWARD" :: "1" :: spec) s st =
      ((true, ""),
       { st with
           events := st.events ++ [Event.cmd ("iptables" :: "-I" :: "FORWARD" :: "1" :: spec) s]
           kernel := { st.kernel with forward := spec :: st.kernel.forward } }) := rfl

@[simp] theorem runCmd_forward_del (w : World) (spec : List String) (s : Bool) (st : St) :
    runCmd w ("iptables" :: "-D" :: "FORWARD" :: spec) s st =
      ((decide (spec ∈ st.kernel.forward), ""),
       { st with
           events := st.events ++ [Event.cmd ("iptables" :: "-D" :: "FORWARD" :: spec) s]
           kernel := { st.kernel with forward := st.kernel.forward.erase spec } }) := rfl

@[simp] theorem runCmd_iprule_show (w : World) (s : Bool) (st : St) :
    runCmd w ["ip", "rule", "show"] s st =
      ((true, ipRuleShowOutput st.kernel.ipRules),
       { st with events := st.events ++ [Event.cmd ["ip", "rule", "show"] s] }) := rfl

@[simp] theorem runCmd_iprule_add (w : World) (m t p : String) (s : Bool) (st : St) :
    runCmd w ["ip", "rule", "add", "fwmark", m, "lookup", t, "priority", p] s st =
      ((true, ""),
       { st with
           events := st.events ++ [Event.cmd ["ip", "rule", "add", "fwmark", m, "lookup", t, "priority", p] s]
           kernel := { st.kernel with ipRules := st.kernel.ipRules ++
             [⟨(strToNat p).getD 0, (strToNat m).getD 0, (strToNat t).getD 0⟩] } }) := rfl

@[simp] theorem runCmd_route_replace (w : World) (gw dv tbl : String) (s : Bool) (st : St) :
    runCmd w ["ip", "route", "replace", "default", "via", gw, "dev", dv, "table", tbl] s st =
      ((true, ""),
       { st with
           events := st.events ++ [Event.cmd ["ip", "route", "replace", "default", "via", gw, "dev", dv, "table", tbl] s]
           kernel := { st.kernel with bypassRoute := some (gw, dv) } }) := rfl

@[simp] theorem runCmd_arp (w : World) (s : Bool) (st : St) :
    runCmd w ["arp", "-n"] s st =
      (w.arp, { st with events := st.events ++ [Event.cmd ["arp", "-n"] s] }) := rfl

@[simp] theorem runCmd_host (w : World) (d : String) (s : Bool) (st : St) :
    runCmd w ["host", d] s st =
      (w.host d, { st with events := st.events ++ [Event.cmd ["host", d] s] }) := rfl

@[simp] theorem runCmd_wgshow_interfaces (w : World) (s : Bool) (st : St) :
    runCmd w ["wg", "show", "interfaces"] s st =
      (w.wgShowInterfaces,
       { st with events := st.events ++ [Event.cmd ["wg", "show", "interfaces"] s] }) := rfl

@[simp] theorem runCmd_wgshow_wg0 (w : World) (s : Bool) (st : St) :
    runCmd w ["wg", "show", "wg0"] s st =
      (w.wgShow "wg0",
       { st with events := st.events ++ [Event.cmd ["wg", "show", "wg0"] s] }) := rfl

@[simp] theorem runCmd_wgquick_up (w : World) (i : String) (s : Bool) (st : St) :
    runCmd w ["wg-quick", "up", i] s st =
      (w.wgQuickUp i, { st with events := st.events ++ [Event.cmd ["wg-quick", "up", i] s] }) := rfl

@[simp] theorem runCmd_wgquick_down (w : World) (i : String) (s : Bool) (st : St) :
    runCmd w ["wg-quick", "down", i] s st =
      (w.wgQuickDown i, { st with events := st.events ++ [Event.cmd ["wg-quick", "down", i] s] }) := rfl

@[simp] theorem runCmd_cp (w : World) (rest : List String) (s : Bool) (st : St) :
    runCmd w ("cp" :: rest) s st =
      (w.cp, { st with events := st.events ++ [Event.cmd ("cp" :: rest) s] }) := rfl

@[simp] theorem runCmd_systemctl (w : World) (a b : String) (s : Bool) (st : St) :
    runCmd w ["systemctl", a, b] s st =
      ((true, ""), { st with events := st.events ++ [Event.cmd ["systemctl", a, b] s] }) := rfl

@[simp] theorem runCmd_chmod (w : World) (a b : String) (s : Bool) (st : St) :
    runCmd w ["chmod", a, b] s st =
      ((true, ""), { st with events := st.events ++ [Event.cmd ["chmod", a, b] s] }) := rfl

@[simp] theorem runCmd_conntrack (w : World) (ip : String) (s : Bool) (st : St) :
    runCmd w ["conntrack", "-D", "-s", ip] s st =
      ((true, ""), { st with events := st.events ++ [Event.cmd ["conntrack", "-D", "-s", ip] s] }) := rfl

@[simp] theorem runCmd_route_flush (w : World) (s : Bool) (st : St) :
    runCmd w ["ip", "route", "flush", "cache"] s st =
      ((true, ""), { st with events := st.events ++ [Event.cmd ["ip", "route", "flush", "cache"] s] }) := rfl

@[simp] theorem runCmd_iplink_del (w : World) (i : String) (s : Bool) (st : St) :
    runCmd w ["ip", "link", "delete", i] s st =
      ((true, ""), { st with events := st.events ++ [Event.cmd ["ip", "link", "delete", i] s] }) := rfl

/-! ### Rule specs (argv suffixes after the chain name) used by `routing.py` -/

/-- The kill-switch forwarding-reject rule spec (`routing.apply_kill_switch`). -/
def ksSpec : List String :=
  ["-m", "comment", "--comment", "KILLSWITCH", "-j", "REJECT"]

/-- Source-mark rule spec for a bypassed device IP
(`routing.apply_device_routing`). -/
def markSpec (ip : String) : List String :=
  ["-i", LAN_IFACE, "-s", ip, "-j", "MARK", "--set-mark", BYPASS_TABLE]

/-- LAN→WAN forwarding-accept rule spec for a bypassed device IP. -/
def fwdSpec1 (ip : String) : List String :=
  ["-i", LAN_IFACE, "-o", WAN_IFACE, "-s", ip, "-j", "ACCEPT"]

/-- WAN→LAN (established/related) forwarding-accept rule spec. -/
def fwdSpec2 (ip : String) : List String :=
  ["-i", WAN_IFACE, "-o", LAN_IFACE, "-d", ip, "-m", "state", "--state",
   "ESTABLISHED,RELATED", "-j", "ACCEPT"]

/-- Destination-mark rule spec for a bypassed domain IP
(`routing.apply_domain_bypass`). -/
def dmarkSpec (ip : String) : List String :=
  ["-i", LAN_IFACE, "-d", ip, "-j", "MARK", "--set-mark", BYPASS_TABLE]

/-- NAT masquerade rule spec (`routing.ensure_bypass_infrastructure`). -/
def masqSpec : List String :=
  ["-o", WAN_IFACE, "-m", "mark", "--mark", BYPASS_TABLE, "-j", "MASQUERADE"]

/-- The fingerprint the source greps `ip rule show` output for:
`f"fwmark 0x{int(BYPASS_TABLE):x} lookup {BYPASS_TABLE}"`. -/
def fwmarkNeedle : String :=
  "fwmark 0x" ++ hexStr ((strToNat BYPASS_TABLE).getD 0) ++ " lookup " ++ BYPASS_TABLE

/-- The `ip rule` entry added by `ensure_bypass_infrastructure`
(`ip rule add fwmark 100 lookup 100 priority 1`). -/
def bypassRule : IpRule :=
  ⟨(strToNat "1").getD 0, (strToNat BYPASS_TABLE).getD 0, (strToNat BYPASS_TABLE).getD 0⟩

/-! ### `routing.py` -/

/-- Model of `routing.apply_kill_switch`: delete-then-insert the tagged reject rule
when blocking; delete it when unblocking. -/
def apply_kill_switch (w : World) (block : Bool) (st : St) : St :=
  if block then
    let st := (runCmd w (["iptables", "-D", "FORWARD"] ++ ksSpec) true st).2
    (runCmd w (["iptables", "-I", "FORWARD", "1"] ++ ksSpec) true st).2
  else
    (runCmd w (["iptables", "-D", "FORWARD"] ++ ksSpec) true st).2

/-- Model of `routing.ensure_bypass_infrastructure`: replace the bypass table's
default route; add the fwmark rule unless its fingerprint already shows
in `ip rule show`; delete-then-add the masquerade rule. -/
def ensure_bypass_infrastructure (w : World) (st : St) : St :=
  let st := (runCmd w ["ip", "route", "replace", "default", "via", GATEWAY_IP,
                       "dev", WAN_IFACE, "table", BYPASS_TABLE] true st).2
  let r := runCmd w ["ip", "rule", "show"] true st
  let output := r.1.2
  let st := r.2
  let st :=
    if strContains output fwmarkNeedle then st
    else (runCmd w ["ip", "rule", "add", "fwmark", BYPASS_TABLE, "lookup",
                    BYPASS_TABLE, "priority", "1"] true st).2
  let st := (runCmd w (["iptables", "-t", "nat", "-D", "POSTROUTING"] ++ masqSpec) true st).2
  (runCmd w (["iptables", "-t", "nat", "-A", "POSTROUTING"] ++ masqSpec) true st).2

/-- The ARP-line scan of `apply_device_routing`: first line whose
lowercasing contains the lowercased MAC and that splits into at least one
field yields its first field. -/
def findIpInLines (macLower : String) : List String → Option String
  | [] => none
  | line :: rest =>
    if strContains (pyLower line) macLower then
      match pySplit line with
      | p :: _ => some p
      | [] => findIpInLines macLower rest
    else findIpInLines macLower rest

/-- IP resolution from `arp -n` output for a MAC. -/
def arpFindIp (mac : String) (output : String) : Option String :=
  findIpInLines (pyLower mac) (splitLines output)

/-- Model of `routing.apply_device_routing`: resolve the MAC via `arp -n`; bail out
silently when resolution fails; otherwise delete-then-add (enable) or
delete (disable) the mark rule and the two forwarding-accept rules, then
flush the route cache and drop conntrack entries. -/
def apply_device_routing (w : World) (mac : String) (bypass : Bool) (st : St) : St :=
  let r := runCmd w ["arp", "-n"] true st
  let ok := r.1.1
  let output := r.1.2
  let st := r.2
  if ok then
    match arpFindIp mac output with
    | none => st
    | some ip =>
      let st :=
        if bypass then
          let st := ensure_bypass_infrastructure w st
          let st := (runCmd w (["iptables", "-t", "mangle", "-D", "PREROUTING"] ++ markSpec ip) true st).2
          let st := (runCmd w (["iptables", "-D", "FORWARD"] ++ fwdSpec1 ip) true st).2
          let st := (runCmd w (["iptables", "-D", "FORWARD"] ++ fwdSpec2 ip) true st).2
          let st := (runCmd w (["iptables", "-t", "mangle", "-A", "PREROUTING"] ++ markSpec ip) true st).2
          let st := (runCmd w (["iptables", "-A", "FORWARD"] ++ fwdSpec1 ip) true st).2
          (runCmd w (["iptables", "-A", "FORWARD"] ++ fwdSpec2 ip) true st).2
        else
          let st := (runCmd w (["iptables", "-t", "mangle", "-D", "PREROUTING"] ++ markSpec ip) true st).2
          let st := (runCmd w (["iptables", "-D", "FORWARD"] ++ fwdSpec1 ip) true st).2
          (runCmd w (["iptables", "-D", "FORWARD"] ++ fwdSpec2 ip) true st).2
      let st := (runCmd w ["ip", "route", "flush", "cache"] true st).2
      (runCmd w ["conntrack", "-D", "-s", ip] true st).2
  else st

/-- The `host` output parse of `apply_domain_bypass`: lines containing
`has address` with at least 4 whitespace fields contribute their last
field. -/
def parseHostIps (output : String) : List String :=
  (splitLines output).foldr
    (fun line acc =>
      if strContains line "has address" then
        let parts := pySplit line
        if 4 ≤ parts.length then parts.getLastD "" :: acc else acc
      else acc) []

/-- Model of `routing.apply_domain_bypass`: resolve the domain at call time; on
enable, ensure infrastructure (when any IP resolved) and delete-then-add
a destination-mark rule per resolved IP; on disable, delete the mark rule
for each re-resolved IP; flush the route cache (enable flushes only when
resolution succeeded, matching the source's early return). -/
def apply_domain_bypass (w : World) (domain : String) (enable : Bool) (st : St) : St :=
  if enable then
    let r := runCmd w ["host", domain] false st
    let ok := r.1.1
    let output := r.1.2
    let st := r.2
    if ok then
      let ips := parseHostIps output
      let st := if ips ≠ [] then ensure_bypass_infrastructure w st else st
      let st := ips.foldl
        (fun st ip =>
          let st := (runCmd w (["iptables", "-t", "mangle", "-D", "PREROUTING"] ++ dmarkSpec ip) true st).2
          (runCmd w (["iptables", "-t", "mangle", "-A", "PREROUTING"] ++ dmarkSpec ip) true st).2) st
      (runCmd w ["ip", "route", "flush", "cache"] true st).2
    else st
  else
    let r := runCmd w ["host", domain] false st
    let ok := r.1.1
    let output := r.1.2
    let st := r.2
    let st :=
      if ok then
        (parseHostIps output).foldl
          (fun st ip =>
            (runCmd w (["iptables", "-t", "mangle", "-D", "PREROUTING"] ++ dmarkSpec ip) true st).2) st
      else st
    (runCmd w ["ip", "route", "flush", "cache"] true st).2

/-! ### `device_manager.py` -/

/-- A parsed DHCP-lease row as produced by `list_devices`. -/
structure LeaseInfo where
  mac : String
  ip : String
  hostname : Option String
deriving DecidableEq, Repr

/-- The dnsmasq lease-file parse of `list_devices`: rows with at least 4
whitespace fields give (mac, ip, hostname), a `*` hostname meaning none. -/
def parseLeases (lines : List String) : List LeaseInfo :=
  lines.foldr
    (fun line acc =>
      let parts := pySplit line
      if 4 ≤ parts.length then
        { mac := (parts.get? 1).getD ""
          ip := (parts.get? 2).getD ""
          hostname := if parts.get? 3 = some "*" then none else parts.get? 3 } :: acc
      else acc) []

/-- The DHCP-lease lookup `set_device_bypass` performs through
`list_devices` (first lease whose MAC matches case-insensitively). -/
def findLease (w : World) (mac : String) : Option LeaseInfo :=
  (parseLeases w.leasesLines).find? (fun d => pyLower d.mac = pyLower mac)

/-- The URL decoding at the top of `set_device_bypass`. -/
def decodeMac (m : String) : String :=
  pyReplace (pyReplace m "%3A" ":") "%3a" ":"

/-- In-place update of the first policy device whose MAC matches
(Python mutates the found object). -/
def updateFirstDevice (mac : String) (b : Bool) : List Device → List Device
  | [] => []
  | d :: rest =>
    if pyLower d.mac = pyLower mac then { d with bypass_vpn := b } :: rest
    else d :: updateFirstDevice mac b rest

/-- Model of `device_manager.set_device_bypass`: update the stored device's flag,
or create the device from the DHCP lease listing, failing 404 when the MAC
is in neither; persist; then apply routing. -/
def set_device_bypass (w : World) (mac0 : String) (bypass : Bool) (st : St) :
    Except HTTPException String × St :=
  let mac := decodeMac mac0
  let cfg := st.store
  match cfg.devices.find? (fun d => pyLower d.mac = pyLower mac) with
  | some _ =>
    let cfg := { cfg with devices := updateFirstDevice mac bypass cfg.devices }
    let st := save_config cfg st
    let st := apply_device_routing w mac bypass st
    (.ok "updated", st)
  | none =>
    match findLease w mac with
    | some info =>
      let cfg := { cfg with devices :=
        cfg.devices ++ [⟨mac, info.ip, info.hostname, bypass⟩] }
      let st := save_config cfg st
      let st := apply_device_routing w mac bypass st
      (.ok "updated", st)
    | none =>
      (.error ⟨404, "Device with MAC " ++ mac ++ " not found"⟩, st)

/-! ### `domain_manager.py` -/

/-- Model of `domain_manager.add_domain_bypass`: 409 on an exact duplicate domain,
else append the entry, persist, then apply routing. -/
def add_domain_bypass (w : World) (domain : String) (st : St) :
    Except HTTPException String × St :=
  let cfg := st.store
  if cfg.domain_bypasses.any (fun d => d.domain = domain) then
    (.error ⟨409, "Domain already in bypass list"⟩, st)
  else
    let cfg := { cfg with domain_bypasses := cfg.domain_bypasses ++ [⟨domain, true⟩] }
    let st := save_config cfg st
    let st := apply_domain_bypass w domain true st
    (.ok "success", st)

/-- Model of `domain_manager.remove_domain_bypass`: filter the domain out; 404 when
the length did not change, else persist, then apply routing. -/
def remove_domain_bypass (w : World) (domain : String) (st : St) :
    Except HTTPException String × St :=
  let cfg := st.store
  let filtered := cfg.domain_bypasses.filter (fun d => d.domain ≠ domain)
  if filtered.length = cfg.domain_bypasses.length then
    (.error ⟨404, "Domain not found in bypass list"⟩, st)
  else
    let st := save_config { cfg with domain_bypasses := filtered } st
    let st := apply_domain_bypass w domain false st
    (.ok "success", st)

/-! ### `vpn_manager.py` -/

/-- Model of `vpn_manager.set_boot_persistence`: systemctl enable/disable of the
single interface's unit (failure only logged). -/
def set_boot_persistence (w : World) (enable : Bool) (st : St) : St :=
  let action := if enable then "enable" else "disable"
  (runCmd w ["systemctl", action, "wg-quick@" ++ WG_INTERFACE] true st).2

/-- Model of `vpn_manager.cleanup_previous_state`: disable and stop the unit of
every config file in the WireGuard directory, then bring every live
tunnel interface down, force-deleting the link when `wg-quick down`
fails.  All failures are swallowed. -/
def cleanup_previous_state (w : World) (st : St) : St :=
  let st := w.wireguardConfs.foldl
    (fun st name =>
      let st := (runCmd w ["systemctl", "disable", "wg-quick@" ++ name] true st).2
      (runCmd w ["systemctl", "stop", "wg-quick@" ++ name] true st).2) st
  let r := runCmd w ["wg", "show", "interfaces"] true st
  let ok := r.1.1
  let output := r.1.2
  let st := r.2
  if ok ∧ pyStrip output ≠ "" then
    (pySplit output).foldl
      (fun st iface =>
        let rd := runCmd w ["wg-quick", "down", iface] true st
        let st := rd.2
        if rd.1.1 then st
        else (runCmd w ["ip", "link", "delete", iface] true st).2) st
  else st

/-- Model of `vpn_manager.connect_vpn`: 404 when the profile file is absent (before
any command); aggressive cleanup; write the profile into the single
interface's config (500 on failure); `wg-quick up` (500 on failure);
enable autostart; deactivate the kill-switch rule when the flag is set;
persist `active_vpn`. -/
def connect_vpn (w : World) (name : String) (st : St) :
    Except HTTPException String × St :=
  if w.profileExists name then
    let cfg := st.store
    let st := cleanup_previous_state w st
    match w.profileRead name with
    | none => (.error ⟨500, "Failed to read profile"⟩, st)
    | some _content =>
      let r := runCmd w ["cp", "/tmp/" ++ WG_INTERFACE ++ ".conf", WG_CONFIG_FILE] true st
      let st := r.2
      if r.1.1 then
        let st := (runCmd w ["chmod", "600", WG_CONFIG_FILE] true st).2
        let r2 := runCmd w ["wg-quick", "up", WG_INTERFACE] true st
        let st := r2.2
        if r2.1.1 then
          let st := set_boot_persistence w true st
          let st := if cfg.kill_switch_enabled then apply_kill_switch w false st else st
          let st := save_config { cfg with active_vpn := some name } st
          (.ok "connected", st)
        else (.error ⟨500, "Failed to start wg0"⟩, st)
      else (.error ⟨500, "Failed to write config"⟩, st)
  else (.error ⟨404, "VPN profile '" ++ name ++ "' not found"⟩, st)

/-- Model of `vpn_manager.disconnect_vpn`: no-op success when `wg show wg0` fails
or prints nothing; else `wg-quick down` (500 on failure), disable
autostart, clear `active_vpn`, persist, and activate the kill-switch rule
when the flag is set. -/
def disconnect_vpn (w : World) (st : St) : Except HTTPException String × St :=
  let cfg := st.store
  let r := runCmd w ["wg", "show", WG_INTERFACE] true st
  let ok := r.1.1
  let output := r.1.2
  let st := r.2
  if ok ∧ pyStrip output ≠ "" then
    let r2 := runCmd w ["wg-quick", "down", WG_INTERFACE] true st
    let st := r2.2
    if r2.1.1 then
      let st := set_boot_persistence w false st
      let st := save_config { cfg with active_vpn := none } st
      let st := if cfg.kill_switch_enabled then apply_kill_switch w true st else st
      (.ok "disconnected", st)
    else (.error ⟨500, "Failed to stop VPN"⟩, st)
  else (.ok "no_vpn_active", st)

/-- Model of `vpn_manager.toggle_kill_switch`: persist the flag; install the reject
rule when enabling with no (Python-truthy) active profile; remove it when
disabling. -/
def toggle_kill_switch (w : World) (enabled : Bool) (st : St) :
    Except HTTPException Bool × St :=
  let cfg := { st.store with kill_switch_enabled := enabled }
  let st := save_config cfg st
  let st :=
    if enabled ∧ ¬ pyTruthyOpt cfg.active_vpn then apply_kill_switch w true st
    else if ¬ enabled then apply_kill_switch w false st
    else st
  (.ok enabled, st)

/-- The name sanitization of `add_vpn_profile`:
`name.replace("/", "").replace("\\", "").replace("..", "")`. -/
def sanitizeName (name : String) : String :=
  pyReplace (pyReplace (pyReplace name "/" "") "\\" "") ".." ""

/-- Model of `vpn_manager.add_vpn_profile`: sanitize the name (400 when empty
afterwards), 409 when the profile file already exists, 400 when the
content lacks `[Interface]` or `[Peer]`, else write the file (500 on a
write failure). -/
def add_vpn_profile (w : World) (name0 content : String) (st : St) :
    Except HTTPException String × St :=
  let name := sanitizeName name0
  if name = "" then (.error ⟨400, "Invalid profile name"⟩, st)
  else if w.profileExists name then
    (.error ⟨409, "VPN profile '" ++ name ++ "' already exists"⟩, st)
  else if strContains content "[Interface]" ∧ strContains content "[Peer]" then
    if w.writeOk then (.ok name, st)
    else (.error ⟨500, "write failed"⟩, st)
  else (.error ⟨400, "Invalid WireGuard configuration format"⟩, st)

/-- Model of `vpn_manager.delete_vpn_profile`: 404 when the file is absent, 400
when the name is the active profile, else unlink. -/
def delete_vpn_profile (w : World) (name : String) (st : St) :
    Except HTTPException String × St :=
  if w.profileExists name then
    if st.store.active_vpn = some name then
      (.error ⟨400, "Cannot delete active profile. Disconnect first."⟩, st)
    else (.ok "deleted", st)
  else (.error ⟨404, "VPN profile '" ++ name ++ "' not found"⟩, st)

/-! ### Event/store frame lemmas -/

theorem runCmd_events (w : World) (argv : List String) (s : Bool) (st : St) :
    (runCmd w argv s st).2.events = st.events ++ [Event.cmd argv s] := by
  unfold runCmd
  dsimp only
  split <;> rfl

theorem runCmd_store (w : World) (argv : List String) (s : Bool) (st : St) :
    (runCmd w argv s st).2.store = st.store := by
  unfold runCmd
  dsimp only
  split <;> rfl

/-- Relation: `st'` extends `st` by command events only (no `save_config`). -/
def CmdExtends (st st' : St) : Prop :=
  st'.store = st.store ∧
  ∃ tail, st'.events = st.events ++ tail ∧ ∀ e ∈ tail, isCmdEvent e = true

theorem cmdExtends_refl (st : St) : CmdExtends st st :=
  ⟨rfl, [], by simp, by simp⟩

theorem cmdExtends_trans {a b c : St} (h1 : CmdExtends a b) (h2 : CmdExtends b c) :
    CmdExtends a c := by
  obtain ⟨hs1, t1, he1, hc1⟩ := h1
  obtain ⟨hs2, t2, he2, hc2⟩ := h2
  refine ⟨hs2.trans hs1, t1 ++ t2, ?_, ?_⟩
  · rw [he2, he1, List.append_assoc]
  · intro e he
    rcases List.mem_append.mp he with h | h
    · exact hc1 e h
    · exact hc2 e h

theorem runCmd_cmdExtends (w : World) (argv : List String) (s : Bool) (st : St) :
    CmdExtends st (runCmd w argv s st).2 :=
  ⟨runCmd_store w argv s st, [Event.cmd argv s], runCmd_events w argv s st,
   by simp [isCmdEvent]⟩

theorem CmdExtends.step {st X : St} {w : World} {a : List String} {s : Bool}
    (h : CmdExtends st X) : CmdExtends st (runCmd w a s X).2 :=
  cmdExtends_trans h (runCmd_cmdExtends w a s X)

theorem foldl_cmdExtends {β : Type} (f : St → β → St)
    (hf : ∀ st x, CmdExtends st (f st x)) :
    ∀ (l : List β) (st : St), CmdExtends st (l.foldl f st) := by
  intro l
  induction l with
  | nil => intro st; exact cmdExtends_refl st
  | cons x xs ih =>
    intro st
    exact cmdExtends_trans (hf st x) (ih (f st x))

/-! ### Concrete fixtures for witnesses -/

/-- A concrete world: one DHCP lease, its MAC resolvable in ARP, a domain
resolving to two addresses, all commands succeeding, no live tunnel. -/
def demoWorld : World where
  arp := (true, "192.168.5.50 ether aa:bb:cc:dd:ee:ff C eth1\n")
  host := fun _ => (true, "example.com has address 192.0.2.1\nexample.com has address 192.0.2.2\n")
  wgShow := fun _ => (true, "")
  wgShowInterfaces := (true, "")
  wgQuickUp := fun _ => (true, "")
  wgQuickDown := fun _ => (true, "")
  cp := (true, "")
  profileExists := fun _ => false
  profileRead := fun _ => none
  writeOk := true
  wireguardConfs := []
  leasesLines := ["1700000000 aa:bb:cc:dd:ee:ff 192.168.5.50 laptop *"]

/-- A state whose policy has an active profile. -/
def stActive : St := { store := { active_vpn := some "siteA" } }

/-! ### C1 — kill-switch toggle -/

/-- Claim C1: `toggle_kill_switch true` with a (Python-truthy) active
profile persists `kill_switch_enabled := true` and issues no command at
all; with no active profile it persists the flag and issues exactly the
tagged delete followed by the tagged top-insert, leaving the reject rule
at the head of FORWARD; `toggle_kill_switch false` in any state persists
the cleared flag and issues exactly the tagged delete, erasing the rule. -/
theorem claim_C1 (w : World) (st : St) :
    (∀ n, st.store.active_vpn = some n → n ≠ "" →
      toggle_kill_switch w true st =
        (.ok true,
         { st with
             store := { st.store with kill_switch_enabled := true }
             events := st.events ++
               [Event.save { st.store with kill_switch_enabled := true }] })) ∧
    (st.store.active_vpn = none →
      toggle_kill_switch w true st =
        (.ok true,
         { st with
             store := { st.store with kill_switch_enabled := true }
             events := st.events ++
               [Event.save { st.store with kill_switch_enabled := true },
                Event.cmd (["iptables", "-D", "FORWARD"] ++ ksSpec) true,
                Event.cmd (["iptables", "-I", "FORWARD", "1"] ++ ksSpec) true]
             kernel := { st.kernel with
               forward := ksSpec :: st.kernel.forward.erase ksSpec } })) ∧
    (toggle_kill_switch w false st =
      (.ok false,
       { st with
           store := { st.store with kill_switch_enabled := false }
           events := st.events ++
             [Event.save { st.store with kill_switch_enabled := false },
              Event.cmd (["iptables", "-D", "FORWARD"] ++ ksSpec) true]
           kernel := { st.kernel with
             forward := st.kernel.forward.erase ksSpec } })) := by
  refine ⟨?_, ?_, ?_⟩
  · intro n h hn
    simp [toggle_kill_switch, save_config, pyTruthyOpt, h, hn]
  · intro h
    simp [toggle_kill_switch, save_config, pyTruthyOpt, h, apply_kill_switch]
  · simp [toggle_kill_switch, save_config, pyTruthyOpt, apply_kill_switch]

/-- Witness for C1: concrete evaluation of the active-profile branch. -/
theorem claim_C1_witness :
    toggle_kill_switch demoWorld true stActive =
      (.ok true,
       { stActive with
           store := { stActive.store with kill_switch_enabled := true }
           events := stActive.events ++
             [Event.save { stActive.store with kill_switch_enabled := true }] }) :=
  (claim_C1 demoWorld stActive).1 "siteA" rfl (by decide)

/-! ### C3 / C10 — `set_device_bypass` -/

/-- When the MAC does not resolve in the ARP listing,
`apply_device_routing` leaves kernel state untouched. -/
theorem device_noip_kernel (w : World) (mac : String) (b : Bool) (st : St)
    (h : arpFindIp mac w.arp.2 = none) :
    (apply_device_routing w mac b st).kernel = st.kernel := by
  by_cases ha : w.arp.1 <;> simp [apply_device_routing, ha, h]

theorem ensure_store_char2 (w : World) (st : St) :
    (ensure_bypass_infrastructure w st).store = st.store := by
  simp only [ensure_bypass_infrastructure, runCmd_route_replace, runCmd_iprule_show]
  split <;> simp

/-- Lemma: `apply_device_routing` never touches the policy store. -/
theorem apply_device_routing_store (w : World) (mac : String) (b : Bool) (st : St) :
    (apply_device_routing w mac b st).store = st.store := by
  by_cases ha : w.arp.1
  · rcases hres : arpFindIp mac w.arp.2 with _ | ip
    · simp [apply_device_routing, ha, hres]
    · cases b <;> simp [apply_device_routing, ha, hres, ensure_store_char2]
  · simp [apply_device_routing, ha]

/-- Claim C3: From an empty policy, `set_device_bypass(mac, true)` for a MAC
present in the DHCP leases but absent from the ARP table returns success,
persists the device with `bypass_vpn = true`, and leaves the kernel rule
state entirely unchanged (the routing side is skipped). -/
theorem claim_C3 (w : World) (mac : String) (info : LeaseInfo) (st : St)
    (hempty : st.store = {})
    (hfind : findLease w (decodeMac mac) = some info)
    (hres : arpFindIp (decodeMac mac) w.arp.2 = none) :
    (set_device_bypass w mac true st).1 = .ok "updated" ∧
    (set_device_bypass w mac true st).2.store.devices =
      [⟨decodeMac mac, info.ip, info.hostname, true⟩] ∧
    (set_device_bypass w mac true st).2.kernel = st.kernel := by
  refine ⟨?_, ?_, ?_⟩
  · simp [set_device_bypass, hempty, hfind]
  · simp [set_device_bypass, hempty, hfind, apply_device_routing_store, save_config]
  · simp [set_device_bypass, hempty, hfind, device_noip_kernel _ _ _ _ hres, save_config]

/-- Witness world for C3/C10: the lease exists but ARP has no row. -/
def noArpWorld : World :=
  { demoWorld with arp := (true, "192.168.5.1 ether 0a:0a:0a:0a:0a:0a C eth0\n") }

/-- Witness for C3. -/
theorem claim_C3_witness :
    (set_device_bypass noArpWorld "AA:BB:CC:DD:EE:FF" true {}).1 = .ok "updated" ∧
    (set_device_bypass noArpWorld "AA:BB:CC:DD:EE:FF" true {}).2.store.devices =
      [⟨decodeMac "AA:BB:CC:DD:EE:FF", "192.168.5.50", some "laptop", true⟩] ∧
    (set_device_bypass noArpWorld "AA:BB:CC:DD:EE:FF" true {}).2.kernel = ({} : St).kernel :=
  claim_C3 noArpWorld "AA:BB:CC:DD:EE:FF" ⟨"aa:bb:cc:dd:ee:ff", "192.168.5.50", some "laptop"⟩ {}
    rfl (by decide) (by decide)

/-- Claim C10: For a MAC in neither the policy's device set nor the DHCP
leases, `set_device_bypass` fails 404 for either flag value and returns
the state untouched (no save, no command). -/
theorem claim_C10 (w : World) (mac : String) (b : Bool) (st : St)
    (hdev : st.store.devices.find? (fun d => pyLower d.mac = pyLower (decodeMac mac)) = none)
    (hlease : findLease w (decodeMac mac) = none) :
    set_device_bypass w mac b st =
      (.error ⟨404, "Device with MAC " ++ decodeMac mac ++ " not found"⟩, st) := by
  simp [set_device_bypass, hdev, hlease]

/-- Witness for C10: an unknown MAC fails 404 with both flag values. -/
theorem claim_C10_witness :
    (set_device_bypass demoWorld "11:22:33:44:55:66" true {} =
      (.error ⟨404, "Device with MAC " ++ decodeMac "11:22:33:44:55:66" ++ " not found"⟩,
       ({} : St))) ∧
    (set_device_bypass demoWorld "11:22:33:44:55:66" false {} =
      (.error ⟨404, "Device with MAC " ++ decodeMac "11:22:33:44:55:66" ++ " not found"⟩,
       ({} : St))) :=
  ⟨claim_C10 demoWorld "11:22:33:44:55:66" true {} (by decide) (by decide),
   claim_C10 demoWorld "11:22:33:44:55:66" false {} (by decide) (by decide)⟩

/-! ### Substring lemmas for the `ip rule show` fingerprint check -/

theorem startsWithL_append {n s : List Char} (t : List Char)
    (h : startsWithL n s = true) : startsWithL n (s ++ t) = true := by
  induction n generalizing s with
  | nil => simp [startsWithL]
  | cons a as ih =>
    cases s with
    | nil => simp [startsWithL] at h
    | cons b bs =>
      simp only [startsWithL, Bool.and_eq_true] at h ⊢
      exact ⟨h.1, ih h.2⟩

theorem hasSub_nil_left (l : List Char) : hasSub [] l = true := by
  induction l with
  | nil => rfl
  | cons c rest ih => simp [hasSub, startsWithL]

theorem hasSub_append_right {n s : List Char} (t : List Char)
    (h : hasSub n s = true) : hasSub n (t ++ s) = true := by
  induction t with
  | nil => simpa using h
  | cons c rest ih =>
    simp only [List.cons_append, hasSub, Bool.or_eq_true]
    exact Or.inr ih

theorem hasSub_append_left {n s : List Char} (t : List Char)
    (h : hasSub n s = true) : hasSub n (s ++ t) = true := by
  induction s with
  | nil =>
    cases n with
    | nil => simpa using hasSub_nil_left t
    | cons a as => simp [hasSub, startsWithL] at h
  | cons c rest ih =>
    simp only [hasSub, Bool.or_eq_true] at h
    rcases h with h | h
    · simp only [List.cons_append, hasSub, Bool.or_eq_true]
      exact Or.inl (startsWithL_append t h)
    · simp only [List.cons_append, hasSub, Bool.or_eq_true]
      exact Or.inr (ih h)

/-- The fingerprint of the fwmark rule shows up in `ip rule show` output
whenever the rule is present. -/
theorem needle_in_show {rs : List IpRule} (h : bypassRule ∈ rs) :
    strContains (ipRuleShowOutput rs) fwmarkNeedle = true := by
  induction rs with
  | nil => cases h
  | cons r rest ih =>
    have hout : ipRuleShowOutput (r :: rest) =
        renderIpRule r ++ ipRuleShowOutput rest := rfl
    rcases List.mem_cons.mp h with h | h
    · subst h
      unfold strContains
      rw [hout, String.data_append]
      exact hasSub_append_left _ (by decide)
    · unfold strContains at ih ⊢
      rw [hout, String.data_append]
      exact hasSub_append_right _ (ih h)

/-! ### C4 — idempotence of `ensure_bypass_infrastructure` -/

/-- The kernel-state effect of one `ensure_bypass_infrastructure` call. -/
def ensureKernel (K : KernelState) : KernelState :=
  let K1 : KernelState := { K with bypassRoute := some (GATEWAY_IP, WAN_IFACE) }
  let K2 : KernelState :=
    if strContains (ipRuleShowOutput K1.ipRules) fwmarkNeedle then K1
    else { K1 with ipRules := K1.ipRules ++ [bypassRule] }
  { K2 with natPostrouting := K2.natPostrouting.erase masqSpec ++ [masqSpec] }

theorem ensure_kernel_char (w : World) (st : St) :
    (ensure_bypass_infrastructure w st).kernel = ensureKernel st.kernel := by
  simp only [ensure_bypass_infrastructure, ensureKernel, runCmd_route_replace,
    runCmd_iprule_show, masqSpec]
  split <;> simp [BYPASS_TABLE, bypassRule]

theorem ensure_store_char (w : World) (st : St) :
    (ensure_bypass_infrastructure w st).store = st.store := by
  simp only [ensure_bypass_infrastructure, runCmd_route_replace, runCmd_iprule_show]
  split <;> simp

/-- The observable kernel rule set: the route, the `ip rule` list, the
mangle and forward chains, and the NAT chain viewed up to multiplicity
(its rule-count function: two POSTROUTING chains holding the same rules
the same number of times are observably equal). -/
def obsKernel (K : KernelState) :
    Option (String × String) × List IpRule × List (List String) ×
      List (List String) × (List String → Nat) :=
  (K.bypassRoute, K.ipRules, K.manglePrerouting, K.forward,
   fun spec => K.natPostrouting.count spec)

theorem ensureKernel_route (K : KernelState) :
    (ensureKernel K).bypassRoute = some (GATEWAY_IP, WAN_IFACE) := by
  simp only [ensureKernel]
  split <;> rfl

theorem ensureKernel_mangle (K : KernelState) :
    (ensureKernel K).manglePrerouting = K.manglePrerouting := by
  simp only [ensureKernel]
  split <;> rfl

theorem ensureKernel_forward (K : KernelState) :
    (ensureKernel K).forward = K.forward := by
  simp only [ensureKernel]
  split <;> rfl

theorem ensureKernel_nat (K : KernelState) :
    (ensureKernel K).natPostrouting = K.natPostrouting.erase masqSpec ++ [masqSpec] := by
  simp only [ensureKernel]
  split <;> rfl

theorem ensureKernel_ipRules (K : KernelState) :
    (ensureKernel K).ipRules =
      if strContains (ipRuleShowOutput K.ipRules) fwmarkNeedle then K.ipRules
      else K.ipRules ++ [bypassRule] := by
  simp only [ensureKernel]
  split <;> rfl

theorem count_erase_append_self (A : List (List String)) (a b : List String) :
    List.count b ((A.erase a ++ [a]).erase a ++ [a]) =
      List.count b (A.erase a ++ [a]) := by
  by_cases hba : b = a
  · subst hba
    have h1 : List.count b [b] = 1 := by simp
    rw [List.count_append, List.count_erase_self, List.count_append, h1]
    omega
  · have h0 : List.count b [a] = 0 := by simp [hba]
    rw [List.count_append, List.count_erase_of_ne hba, h0]
    omega

theorem ensureKernel_ipRules_idem (K : KernelState) :
    (ensureKernel (ensureKernel K)).ipRules = (ensureKernel K).ipRules := by
  rw [ensureKernel_ipRules (ensureKernel K), ensureKernel_ipRules K]
  by_cases c : strContains (ipRuleShowOutput K.ipRules) fwmarkNeedle
  · simp [c, ensureKernel_ipRules]
  · have c2 : strContains (ipRuleShowOutput (K.ipRules ++ [bypassRule])) fwmarkNeedle = true :=
      needle_in_show (by simp)
    simp [c, c2, ensureKernel_ipRules]

/-- One application of `ensureKernel` reaches an observable fixed point. -/
theorem ensureKernel_obs_idem (K : KernelState) :
    obsKernel (ensureKernel (ensureKernel K)) = obsKernel (ensureKernel K) := by
  unfold obsKernel
  rw [ensureKernel_route, ensureKernel_route, ensureKernel_mangle, ensureKernel_mangle,
    ensureKernel_forward, ensureKernel_forward, ensureKernel_ipRules_idem]
  simp only [Prod.mk.injEq, true_and, and_true]
  funext b
  rw [ensureKernel_nat (ensureKernel K), ensureKernel_nat K]
  exact count_erase_append_self K.natPostrouting masqSpec b

/-- Iterate: `N` successive calls of `ensure_bypass_infrastructure`. -/
def ensureIter (w : World) : Nat → St → St
  | 0, st => st
  | n + 1, st => ensureIter w n (ensure_bypass_infrastructure w st)

theorem ensureIter_obs (w : World) (n : Nat) (st : St) :
    obsKernel (ensureIter w (n + 1) st).kernel =
      obsKernel (ensure_bypass_infrastructure w st).kernel := by
  induction n generalizing st with
  | zero => rfl
  | succ m ih =>
    calc obsKernel (ensureIter w (m + 2) st).kernel
        = obsKernel (ensureIter w (m + 1) (ensure_bypass_infrastructure w st)).kernel := rfl
      _ = obsKernel (ensure_bypass_infrastructure w
            (ensure_bypass_infrastructure w st)).kernel := ih _
      _ = obsKernel (ensure_bypass_infrastructure w st).kernel := by
          rw [ensure_kernel_char, ensure_kernel_char, ensureKernel_obs_idem,
            ← ensure_kernel_char w st]

/-- Claim C4: Calling `ensure_bypass_infrastructure` `N ≥ 1` times in a row
leaves the same observable kernel rule set (bypass route, `ip rule` list,
mangle/forward chains, NAT chain as a multiset) as calling it once.  In
particular, when the fwmark rule is already present the fingerprint check
leaves the `ip rule` list untouched (no duplicate fwmark rule), and
delete-then-add leaves exactly one masquerade rule whenever at most one
was present before. -/
theorem claim_C4 (w : World) (st : St) :
    (∀ n, 1 ≤ n →
      obsKernel (ensureIter w n st).kernel =
        obsKernel (ensureIter w 1 st).kernel) ∧
    (bypassRule ∈ st.kernel.ipRules →
      (ensure_bypass_infrastructure w st).kernel.ipRules = st.kernel.ipRules) ∧
    (st.kernel.natPostrouting.count masqSpec ≤ 1 →
      (ensure_bypass_infrastructure w st).kernel.natPostrouting.count masqSpec = 1) := by
  refine ⟨?_, ?_, ?_⟩
  · intro n hn
    obtain ⟨m, rfl⟩ : ∃ m, n = m + 1 := ⟨n - 1, (Nat.succ_pred_eq_of_pos hn).symm⟩
    rw [ensureIter_obs]
    rfl
  · intro h
    rw [ensure_kernel_char]
    simp [ensureKernel, needle_in_show h]
  · intro h
    rw [ensure_kernel_char]
    have : ∀ K : KernelState, (ensureKernel K).natPostrouting =
        K.natPostrouting.erase masqSpec ++ [masqSpec] := by
      intro K
      simp only [ensureKernel]
      split <;> rfl
    rw [this]
    rw [List.count_append, List.count_erase_self]
    simp
    omega

/-! ### C5 — device-bypass rule bookkeeping -/

theorem device_enable_kernel (w : World) (mac ip : String) (st : St)
    (harp : w.arp.1 = true) (hres : arpFindIp mac w.arp.2 = some ip) :
    (apply_device_routing w mac true st).kernel =
      { ensureKernel st.kernel with
          manglePrerouting :=
            (ensureKernel st.kernel).manglePrerouting.erase (markSpec ip) ++ [markSpec ip]
          forward :=
            ((ensureKernel st.kernel).forward.erase (fwdSpec1 ip)).erase (fwdSpec2 ip)
              ++ [fwdSpec1 ip, fwdSpec2 ip] } := by
  simp [apply_device_routing, harp, hres, ensure_kernel_char]

theorem device_disable_kernel (w : World) (mac ip : String) (st : St)
    (harp : w.arp.1 = true) (hres : arpFindIp mac w.arp.2 = some ip) :
    (apply_device_routing w mac false st).kernel =
      { st.kernel with
          manglePrerouting := st.kernel.manglePrerouting.erase (markSpec ip)
          forward := (st.kernel.forward.erase (fwdSpec1 ip)).erase (fwdSpec2 ip) } := by
  simp [apply_device_routing, harp, hres]

theorem fwdSpec_ne (ip : String) : fwdSpec1 ip ≠ fwdSpec2 ip := by
  simp [fwdSpec1, fwdSpec2, LAN_IFACE, WAN_IFACE]

/-- Claim C5: When the MAC resolves in the ARP table and each of the three
per-IP rules occurs at most once beforehand, enabling installs exactly one
source-mark rule and exactly one of each forwarding-accept rule for the
IP, and the subsequent disable removes all three, leaving zero. -/
theorem claim_C5 (w : World) (mac ip : String) (st : St)
    (harp : w.arp.1 = true) (hres : arpFindIp mac w.arp.2 = some ip)
    (h1 : st.kernel.manglePrerouting.count (markSpec ip) ≤ 1)
    (h2 : st.kernel.forward.count (fwdSpec1 ip) ≤ 1)
    (h3 : st.kernel.forward.count (fwdSpec2 ip) ≤ 1) :
    (apply_device_routing w mac true st).kernel.manglePrerouting.count (markSpec ip) = 1 ∧
    (apply_device_routing w mac true st).kernel.forward.count (fwdSpec1 ip) = 1 ∧
    (apply_device_routing w mac true st).kernel.forward.count (fwdSpec2 ip) = 1 ∧
    (apply_device_routing w mac false (apply_device_routing w mac true st)).kernel.manglePrerouting.count
      (markSpec ip) = 0 ∧
    (apply_device_routing w mac false (apply_device_routing w mac true st)).kernel.forward.count
      (fwdSpec1 ip) = 0 ∧
    (apply_device_routing w mac false (apply_device_routing w mac true st)).kernel.forward.count
      (fwdSpec2 ip) = 0 := by
  have hne := fwdSpec_ne ip
  have hne' : fwdSpec2 ip ≠ fwdSpec1 ip := fun h => hne h.symm
  rw [device_enable_kernel w mac ip st harp hres,
    device_disable_kernel w mac ip _ harp hres]
  simp only [ensureKernel_mangle, ensureKernel_forward]
  have c1 : ((st.kernel.manglePrerouting.erase (markSpec ip) ++ [markSpec ip]).count
      (markSpec ip)) = 1 := by
    rw [List.count_append, List.count_erase_self]
    have : List.count (markSpec ip) [markSpec ip] = 1 := by simp
    omega
  have c2 : (((st.kernel.forward.erase (fwdSpec1 ip)).erase (fwdSpec2 ip)
      ++ [fwdSpec1 ip, fwdSpec2 ip]).count (fwdSpec1 ip)) = 1 := by
    rw [List.count_append, List.count_erase_of_ne hne, List.count_erase_self]
    have : List.count (fwdSpec1 ip) [fwdSpec1 ip, fwdSpec2 ip] = 1 := by
      simp [hne]
    omega
  have c3 : (((st.kernel.forward.erase (fwdSpec1 ip)).erase (fwdSpec2 ip)
      ++ [fwdSpec1 ip, fwdSpec2 ip]).count (fwdSpec2 ip)) = 1 := by
    rw [List.count_append, List.count_erase_self, List.count_erase_of_ne hne']
    have : List.count (fwdSpec2 ip) [fwdSpec1 ip, fwdSpec2 ip] = 1 := by
      simp [hne']
    omega
  refine ⟨c1, c2, c3, ?_, ?_, ?_⟩
  · rw [device_enable_kernel w mac ip st harp hres]
    simp only [ensureKernel_mangle]
    rw [List.count_erase_self, c1]
  · rw [device_enable_kernel w mac ip st harp hres]
    simp only [ensureKernel_forward]
    rw [List.count_erase_of_ne hne, List.count_erase_self, c2]
  · rw [device_enable_kernel w mac ip st harp hres]
    simp only [ensureKernel_forward]
    rw [List.count_erase_self, List.count_erase_of_ne hne', c3]

/-- Witness for C5: the demo world resolves the demo MAC to its IP and the
empty kernel satisfies the multiplicity bounds. -/
theorem claim_C5_witness :
    (apply_device_routing demoWorld "aa:bb:cc:dd:ee:ff" true {}).kernel.manglePrerouting.count
        (markSpec "192.168.5.50") = 1 ∧
    (apply_device_routing demoWorld "aa:bb:cc:dd:ee:ff" true {}).kernel.forward.count
        (fwdSpec1 "192.168.5.50") = 1 ∧
    (apply_device_routing demoWorld "aa:bb:cc:dd:ee:ff" true {}).kernel.forward.count
        (fwdSpec2 "192.168.5.50") = 1 ∧
    (apply_device_routing demoWorld "aa:bb:cc:dd:ee:ff" false
        (apply_device_routing demoWorld "aa:bb:cc:dd:ee:ff" true {})).kernel.manglePrerouting.count
        (markSpec "192.168.5.50") = 0 ∧
    (apply_device_routing demoWorld "aa:bb:cc:dd:ee:ff" false
        (apply_device_routing demoWorld "aa:bb:cc:dd:ee:ff" true {})).kernel.forward.count
        (fwdSpec1 "192.168.5.50") = 0 ∧
    (apply_device_routing demoWorld "aa:bb:cc:dd:ee:ff" false
        (apply_device_routing demoWorld "aa:bb:cc:dd:ee:ff" true {})).kernel.forward.count
        (fwdSpec2 "192.168.5.50") = 0 :=
  claim_C5 demoWorld "aa:bb:cc:dd:ee:ff" "192.168.5.50" {} (by decide) (by decide)
    (by decide) (by decide) (by decide)

/-- Witness for C4: three calls from the empty state coincide observably
with one call, the fwmark-present case keeps the rule list, and the
masquerade count lands at one. -/
theorem claim_C4_witness :
    (obsKernel (ensureIter demoWorld 3 {}).kernel =
       obsKernel (ensureIter demoWorld 1 {}).kernel) ∧
    ((ensure_bypass_infrastructure demoWorld
        { kernel := { ipRules := [bypassRule] } }).kernel.ipRules = [bypassRule]) ∧
    ((ensure_bypass_infrastructure demoWorld {}).kernel.natPostrouting.count masqSpec = 1) :=
  ⟨(claim_C4 demoWorld {}).1 3 (by decide),
   (claim_C4 demoWorld { kernel := { ipRules := [bypassRule] } }).2.1 (by simp),
   (claim_C4 demoWorld {}).2.2 (by simp)⟩

/-! ### C8 / C6 — domain bypass -/

theorem ensure_cmdExtends (w : World) (st : St) :
    CmdExtends st (ensure_bypass_infrastructure w st) := by
  unfold ensure_bypass_infrastructure
  dsimp only
  refine CmdExtends.step (CmdExtends.step ?_)
  split
  · exact CmdExtends.step (CmdExtends.step (cmdExtends_refl st))
  · exact CmdExtends.step (CmdExtends.step (CmdExtends.step (cmdExtends_refl st)))

theorem apply_domain_cmdExtends (w : World) (d : String) (e : Bool) (st : St) :
    CmdExtends st (apply_domain_bypass w d e st) := by
  unfold apply_domain_bypass
  dsimp only
  split
  · split
    · refine CmdExtends.step ?_
      refine cmdExtends_trans ?_
        (foldl_cmdExtends _ (fun st' ip => CmdExtends.step (CmdExtends.step (cmdExtends_refl st'))) _ _)
      split
      · exact cmdExtends_trans (runCmd_cmdExtends _ _ _ _) (ensure_cmdExtends _ _)
      · exact runCmd_cmdExtends _ _ _ _
    · exact runCmd_cmdExtends _ _ _ _
  · refine CmdExtends.step ?_
    split
    · exact cmdExtends_trans (runCmd_cmdExtends _ _ _ _)
        (foldl_cmdExtends _ (fun st' ip => CmdExtends.step (cmdExtends_refl st')) _ _)
    · exact runCmd_cmdExtends _ _ _ _

/-- Claim C8: `add_domain_bypass` fails 409 on an exact duplicate and
`remove_domain_bypass` fails 404 on an absent domain, in both cases
returning the state untouched (no save, no command); in the success cases
the updated policy is saved first and everything after the save event is a
command event (`apply_domain_bypass` runs only after persistence). -/
theorem claim_C8 (w : World) (domain : String) (st : St) :
    (st.store.domain_bypasses.any (fun d => d.domain = domain) = true →
      add_domain_bypass w domain st = (.error ⟨409, "Domain already in bypass list"⟩, st)) ∧
    (st.store.domain_bypasses.any (fun d => d.domain = domain) = false →
      (add_domain_bypass w domain st).1 = .ok "success" ∧
      (add_domain_bypass w domain st).2.store =
        { st.store with domain_bypasses := st.store.domain_bypasses ++ [⟨domain, true⟩] } ∧
      ∃ tail, (add_domain_bypass w domain st).2.events =
          st.events ++ Event.save
            { st.store with domain_bypasses := st.store.domain_bypasses ++ [⟨domain, true⟩] } :: tail ∧
        ∀ e ∈ tail, isCmdEvent e = true) ∧
    ((st.store.domain_bypasses.filter (fun d => d.domain ≠ domain)).length =
        st.store.domain_bypasses.length →
      remove_domain_bypass w domain st = (.error ⟨404, "Domain not found in bypass list"⟩, st)) ∧
    ((st.store.domain_bypasses.filter (fun d => d.domain ≠ domain)).length ≠
        st.store.domain_bypasses.length →
      (remove_domain_bypass w domain st).1 = .ok "success" ∧
      (remove_domain_bypass w domain st).2.store =
        { st.store with domain_bypasses :=
            st.store.domain_bypasses.filter (fun d => d.domain ≠ domain) } ∧
      ∃ tail, (remove_domain_bypass w domain st).2.events =
          st.events ++ Event.save
            { st.store with domain_bypasses :=
                st.store.domain_bypasses.filter (fun d => d.domain ≠ domain) } :: tail ∧
        ∀ e ∈ tail, isCmdEvent e = true) := by
  have apply_domain_store : ∀ (e : Bool) (X : St),
      (apply_domain_bypass w domain e X).store = X.store :=
    fun e X => (apply_domain_cmdExtends w domain e X).1
  refine ⟨?_, ?_, ?_, ?_⟩
  · intro hany
    simp [add_domain_bypass, hany]
  · intro hany
    have hcond : ¬((st.store.domain_bypasses.any fun d => d.domain = domain) = true) := by
      simp [hany]
    unfold add_domain_bypass
    dsimp only
    rw [if_neg hcond]
    refine ⟨rfl, ?_, ?_⟩
    · rw [apply_domain_store]
      rfl
    · obtain ⟨tail, he, hc⟩ := (apply_domain_cmdExtends w domain true
        (save_config
          { st.store with domain_bypasses := st.store.domain_bypasses ++ [⟨domain, true⟩] } st)).2
      refine ⟨tail, ?_, hc⟩
      rw [he]
      simp [save_config]
  · intro hlen
    unfold remove_domain_bypass
    dsimp only
    rw [if_pos hlen]
  · intro hlen
    unfold remove_domain_bypass
    dsimp only
    rw [if_neg hlen]
    refine ⟨rfl, ?_, ?_⟩
    · rw [apply_domain_store]
      rfl
    · obtain ⟨tail, he, hc⟩ := (apply_domain_cmdExtends w domain false
        (save_config
          { st.store with domain_bypasses :=
              st.store.domain_bypasses.filter (fun d => d.domain ≠ domain) } st)).2
      refine ⟨tail, ?_, hc⟩
      rw [he]
      simp [save_config]

/-- Witness for C8: duplicate add fails 409, and removing an absent
domain fails 404, on a concrete store. -/
theorem claim_C8_witness :
    (add_domain_bypass demoWorld "example.com"
        { store := { domain_bypasses := [⟨"example.com", true⟩] } } =
      (.error ⟨409, "Domain already in bypass list"⟩,
       { store := { domain_bypasses := [⟨"example.com", true⟩] } })) ∧
    (remove_domain_bypass demoWorld "other.org"
        { store := { domain_bypasses := [⟨"example.com", true⟩] } } =
      (.error ⟨404, "Domain not found in bypass list"⟩,
       { store := { domain_bypasses := [⟨"example.com", true⟩] } })) :=
  ⟨(claim_C8 demoWorld "example.com"
      { store := { domain_bypasses := [⟨"example.com", true⟩] } }).1 (by decide),
   (claim_C8 demoWorld "other.org"
      { store := { domain_bypasses := [⟨"example.com", true⟩] } }).2.2.1 (by decide)⟩

/-- Claim C6: Enabling a domain that resolves to `{A, B}` installs one
destination-mark rule per resolved IP; the removal re-resolves, and when
DNS then answers `{B, C}` only the rules for `B` and `C` are deleted,
leaving `A`'s rule orphaned in the mangle chain. -/
theorem claim_C6 (d : String) (w1 w2 : World) (st : St)
    (h1ok : (w1.host d).1 = true)
    (h1 : parseHostIps (w1.host d).2 = ["192.0.2.1", "192.0.2.2"])
    (h2ok : (w2.host d).1 = true)
    (h2 : parseHostIps (w2.host d).2 = ["192.0.2.2", "192.0.2.3"])
    (hm : st.kernel.manglePrerouting = []) :
    (apply_domain_bypass w1 d true st).kernel.manglePrerouting =
      [dmarkSpec "192.0.2.1", dmarkSpec "192.0.2.2"] ∧
    (apply_domain_bypass w2 d false (apply_domain_bypass w1 d true st)).kernel.manglePrerouting =
      [dmarkSpec "192.0.2.1"] := by
  have e12 : (dmarkSpec "192.0.2.1" == dmarkSpec "192.0.2.2") = false := by decide
  have e13 : (dmarkSpec "192.0.2.1" == dmarkSpec "192.0.2.3") = false := by decide
  have e22 : (dmarkSpec "192.0.2.2" == dmarkSpec "192.0.2.2") = true := by decide
  have hA : (apply_domain_bypass w1 d true st).kernel.manglePrerouting =
      [dmarkSpec "192.0.2.1", dmarkSpec "192.0.2.2"] := by
    unfold apply_domain_bypass
    dsimp only
    rw [runCmd_host]
    dsimp only
    rw [if_pos h1ok, h1]
    simp [ensure_kernel_char, ensureKernel_mangle, hm, List.erase_cons, e12]
  refine ⟨hA, ?_⟩
  obtain ⟨st1, hst1⟩ : ∃ st1, apply_domain_bypass w1 d true st = st1 := ⟨_, rfl⟩
  rw [hst1] at hA ⊢
  unfold apply_domain_bypass
  simp only [Bool.false_eq_true, if_false]
  rw [runCmd_host]
  dsimp only
  rw [if_pos h2ok, h2]
  simp [hA, List.erase_cons, e12, e13, e22]

/-- Witness world pair for C6: DNS answers `{A, B}` at add time and
`{B, C}` at remove time. -/
def dnsWorld1 : World :=
  { demoWorld with host := fun _ =>
      (true, "x has address 192.0.2.1\nx has address 192.0.2.2\n") }

def dnsWorld2 : World :=
  { demoWorld with host := fun _ =>
      (true, "x has address 192.0.2.2\nx has address 192.0.2.3\n") }

/-! ### C2 / C7 — tunnel lifecycle -/

theorem cleanup_cmdExtends (w : World) (st : St) :
    CmdExtends st (cleanup_previous_state w st) := by
  have hsys : ∀ (st' : St) (x : String),
      CmdExtends st'
        ((runCmd w ["systemctl", "stop", "wg-quick@" ++ x] true
          ((runCmd w ["systemctl", "disable", "wg-quick@" ++ x] true st').2)).2) :=
    fun st' x => CmdExtends.step (CmdExtends.step (cmdExtends_refl st'))
  unfold cleanup_previous_state
  dsimp only
  split
  · refine cmdExtends_trans ?_ (foldl_cmdExtends _ ?_ _ _)
    · exact CmdExtends.step (foldl_cmdExtends _ hsys _ _)
    · intro st' i
      dsimp only
      split
      · exact CmdExtends.step (cmdExtends_refl st')
      · exact CmdExtends.step (CmdExtends.step (cmdExtends_refl st'))
  · exact CmdExtends.step (foldl_cmdExtends _ hsys _ _)

/-- Claim C7: `connect_vpn` on an unknown profile name fails 404 before any
command or save, returning the state untouched; every failing call leaves
the persisted policy unchanged, and a successful call persists exactly
`active_vpn := some name` — so `active_vpn` is updated only after the
interface bring-up succeeded. -/
theorem claim_C7 (w : World) (name : String) (st : St) :
    (w.profileExists name = false →
      connect_vpn w name st =
        (.error ⟨404, "VPN profile '" ++ name ++ "' not found"⟩, st)) ∧
    (∀ e st', connect_vpn w name st = (.error e, st') → st'.store = st.store) ∧
    (∀ r st', connect_vpn w name st = (.ok r, st') →
      st'.store = { st.store with active_vpn := some name } ∧ r = "connected") := by
  refine ⟨?_, ?_, ?_⟩
  · intro hex
    simp [connect_vpn, hex]
  · intro e st' he
    by_cases hex : w.profileExists name
    · rcases hread : w.profileRead name with _ | content
      · simp [connect_vpn, hex, hread] at he
        obtain ⟨-, hst⟩ := he
        subst st'
        exact (cleanup_cmdExtends w st).1
      · by_cases hcp : w.cp.1
        · by_cases hup : (w.wgQuickUp "wg0").1
          · rcases hks : st.store.kill_switch_enabled <;>
              simp [connect_vpn, hex, hread, hcp, hup, hks, WG_INTERFACE] at he
          · simp [connect_vpn, hex, hread, hcp, hup, WG_INTERFACE] at he
            obtain ⟨-, hst⟩ := he
            subst st'
            exact (cleanup_cmdExtends w st).1
        · simp [connect_vpn, hex, hread, hcp, WG_INTERFACE] at he
          obtain ⟨-, hst⟩ := he
          subst st'
          exact (cleanup_cmdExtends w st).1
    · simp [connect_vpn, hex] at he
      obtain ⟨-, hst⟩ := he
      subst st'
      rfl
  · intro r st' he
    by_cases hex : w.profileExists name
    · rcases hread : w.profileRead name with _ | content
      · simp [connect_vpn, hex, hread] at he
      · by_cases hcp : w.cp.1
        · by_cases hup : (w.wgQuickUp "wg0").1
          · rcases hks : st.store.kill_switch_enabled
            all_goals {
              simp [connect_vpn, hex, hread, hcp, hup, hks, WG_INTERFACE,
                set_boot_persistence, apply_kill_switch, save_config] at he
              obtain ⟨hr, hst⟩ := he
              subst st'
              exact ⟨by simp [save_config, hks], by simp [hr]⟩ }
          · simp [connect_vpn, hex, hread, hcp, hup, WG_INTERFACE] at he
        · simp [connect_vpn, hex, hread, hcp, WG_INTERFACE] at he
    · simp [connect_vpn, hex] at he

/-- Witness for C7: unknown profile fails 404 and leaves the state
untouched. -/
theorem claim_C7_witness :
    connect_vpn demoWorld "ghost" stActive =
      (.error ⟨404, "VPN profile '" ++ "ghost" ++ "' not found"⟩, stActive) :=
  (claim_C7 demoWorld "ghost" stActive).1 rfl

/-- Claim C2, counterexample: A state whose policy holds an active profile
but whose live interface is down: `disconnect_vpn` is a no-op success that
issues only the `wg show` query — it neither brings any interface down nor
clears `activeProfile`, contradicting the claim's `activeProfile`-keyed
reading. -/
theorem claim_C2_counterexample :
    (disconnect_vpn demoWorld stActive).1 = .ok "no_vpn_active" ∧
    (disconnect_vpn demoWorld stActive).2.store.active_vpn = some "siteA" ∧
    (disconnect_vpn demoWorld stActive).2.events =
      [Event.cmd ["wg", "show", "wg0"] true] :=
  ⟨rfl, rfl, rfl⟩

/-- Claim C2, amended: `disconnect_vpn` keys its no-op on the live
interface state (`wg show wg0`), not on `activeProfile`: when the query
fails or prints nothing it returns success having issued only the query,
leaving policy and kernel untouched; otherwise it brings the interface
down (OperationFailed with nothing persisted when that fails), disables
autostart, clears and persists `active_vpn`, and installs the tagged
reject rule exactly when the kill-switch flag is set. -/
theorem claim_C2 (w : World) (st : St) :
    (((w.wgShow "wg0").1 = false ∨ pyStrip (w.wgShow "wg0").2 = "") →
      disconnect_vpn w st =
        (.ok "no_vpn_active",
         { st with events := st.events ++ [Event.cmd ["wg", "show", "wg0"] true] })) ∧
    ((w.wgShow "wg0").1 = true → pyStrip (w.wgShow "wg0").2 ≠ "" →
      (w.wgQuickDown "wg0").1 = false →
      disconnect_vpn w st =
        (.error ⟨500, "Failed to stop VPN"⟩,
         { st with events := st.events ++
             [Event.cmd ["wg", "show", "wg0"] true,
              Event.cmd ["wg-quick", "down", "wg0"] true] })) ∧
    ((w.wgShow "wg0").1 = true → pyStrip (w.wgShow "wg0").2 ≠ "" →
      (w.wgQuickDown "wg0").1 = true →
      disconnect_vpn w st =
        (.ok "disconnected",
         { kernel :=
             if st.store.kill_switch_enabled then
               { st.kernel with forward := ksSpec :: st.kernel.forward.erase ksSpec }
             else st.kernel
           store := { st.store with active_vpn := none }
           events := st.events ++
             [Event.cmd ["wg", "show", "wg0"] true,
              Event.cmd ["wg-quick", "down", "wg0"] true,
              Event.cmd ["systemctl", "disable", "wg-quick@wg0"] true,
              Event.save { st.store with active_vpn := none }] ++
             (if st.store.kill_switch_enabled then
               [Event.cmd (["iptables", "-D", "FORWARD"] ++ ksSpec) true,
                Event.cmd (["iptables", "-I", "FORWARD", "1"] ++ ksSpec) true]
              else []) })) := by
  refine ⟨?_, ?_, ?_⟩
  · intro h
    rcases h with h | h <;>
      simp [disconnect_vpn, WG_INTERFACE, h]
  · intro h1 h2 h3
    simp [disconnect_vpn, WG_INTERFACE, h1, h2, h3]
  · intro h1 h2 h3
    rcases hks : st.store.kill_switch_enabled <;>
      simp [disconnect_vpn, WG_INTERFACE, h1, h2, h3, hks, set_boot_persistence,
        save_config, apply_kill_switch]

/-- Witness for C2 (amended): concrete evaluation of the no-op branch. -/
theorem claim_C2_witness :
    disconnect_vpn demoWorld stActive =
      (.ok "no_vpn_active",
       { stActive with events := stActive.events ++ [Event.cmd ["wg", "show", "wg0"] true] }) :=
  (claim_C2 demoWorld stActive).1 (Or.inr rfl)

/-! ### C9 — profile-name sanitization and validation -/

/-- Claim C9, counterexample: A name containing the traversal sequence
`../` does not fail InvalidInput: the source strips `/`, `\` and `..`
and proceeds, creating the profile under the sanitized name. -/
theorem claim_C9_counterexample :
    add_vpn_profile demoWorld "../payload" "[Interface]\nPrivateKey = x\n[Peer]\n" {} =
      (.ok "payload", {}) := rfl

/-- Claim C9, amended: `add_vpn_profile` strips `/`, `\` and `..` from the
name and fails InvalidInput only when nothing remains; it fails Conflict
when a profile file for the sanitized name exists, and InvalidInput when
the content lacks an `[Interface]` or `[Peer]` marker. -/
theorem claim_C9 (w : World) (name content : String) (st : St) :
    (sanitizeName name = "" →
      add_vpn_profile w name content st = (.error ⟨400, "Invalid profile name"⟩, st)) ∧
    (sanitizeName name ≠ "" → w.profileExists (sanitizeName name) = true →
      add_vpn_profile w name content st =
        (.error ⟨409, "VPN profile '" ++ sanitizeName name ++ "' already exists"⟩, st)) ∧
    (sanitizeName name ≠ "" → w.profileExists (sanitizeName name) = false →
      ¬(strContains content "[Interface]" = true ∧ strContains content "[Peer]" = true) →
      add_vpn_profile w name content st =
        (.error ⟨400, "Invalid WireGuard configuration format"⟩, st)) := by
  refine ⟨?_, ?_, ?_⟩
  · intro h
    simp [add_vpn_profile, h]
  · intro h1 h2
    simp [add_vpn_profile, h1, h2]
  · intro h1 h2 h3
    simp [add_vpn_profile, h1, h2, h3]

/-- Witness for C9 (amended): empty-after-sanitization name fails 400. -/
theorem claim_C9_witness :
    add_vpn_profile demoWorld "../" "x" {} = (.error ⟨400, "Invalid profile name"⟩, {}) :=
  (claim_C9 demoWorld "../" "x" {}).1 (by decide)

/-- Witness for C6. -/
theorem claim_C6_witness :
    (apply_domain_bypass dnsWorld1 "x" true {}).kernel.manglePrerouting =
      [dmarkSpec "192.0.2.1", dmarkSpec "192.0.2.2"] ∧
    (apply_domain_bypass dnsWorld2 "x" false
        (apply_domain_bypass dnsWorld1 "x" true {})).kernel.manglePrerouting =
      [dmarkSpec "192.0.2.1"] :=
  claim_C6 "x" dnsWorld1 dnsWorld2 {} (by decide) (by decide) (by decide) (by decide) rfl

end PiRouter
